import Mathlib

/-
Verification development for the ml-serving-comparison repository.

The repository serves one text-embedding operation (and a batch variant)
through three protocol adapters (REST, gRPC, GraphQL) that all delegate to
one shared EmbeddingModel wrapper (src/shared/model.py).  The external
SentenceTransformer model is out of scope and is represented here as an
opaque capability: an encode function (fallible, modelling a possible
runtime exception), a batch encode function, and a fixed dimension.
Scalars are modelled as rationals.  Wall-clock samples taken with
time.time() are passed in as explicit rational timestamps.
-/

namespace MLServing

/-- Opaque external collaborator: the loaded SentenceTransformer.
`encode` models `self.model.encode(text).tolist()` (an exception is an
`Except.error`), `encodeBatch` models `self.model.encode(texts).tolist()`,
and `dim` models `get_sentence_embedding_dimension()`. -/
structure SentenceTransformer where
  encode : String → Except String (List ℚ)
  encodeBatch : List String → Except String (List (List ℚ))
  dim : ℕ

/-- Nominal contract of the external model (spec section 1: opaque
capability returning a vector per text, of the model dimension, batch in
input order).  Stated as hypotheses for claims that rely on it. -/
structure STContract (st : SentenceTransformer) : Prop where
  encode_ok : ∀ t, ∃ v, st.encode t = Except.ok v
  encode_dim : ∀ t v, st.encode t = Except.ok v → v.length = st.dim
  batch_ok : ∀ ts, ∃ vs, st.encodeBatch ts = Except.ok vs
  batch_len : ∀ ts vs, st.encodeBatch ts = Except.ok vs → vs.length = ts.length
  batch_order : ∀ ts vs, st.encodeBatch ts = Except.ok vs →
    ∀ i (hi : i < ts.length) (hv : i < vs.length),
      st.encode (ts.get ⟨i, hi⟩) = Except.ok (vs.get ⟨i, hv⟩)

/-- src/shared/model.py, class EmbeddingModel: wrapper holding the model
name and the loaded SentenceTransformer handle. -/
structure EmbeddingModel where
  model_name : String
  model : SentenceTransformer

/-- src/shared/model.py `__init__`: stores the configuration name and the
loaded model (loading itself is the external collaborator). -/
def mkEmbeddingModel (st : SentenceTransformer)
    (name : String := "all-MiniLM-L6-v2") : EmbeddingModel :=
  { model_name := name, model := st }

/-- src/shared/model.py lines 32-48: `embed` delegates directly to
`self.model.encode(text).tolist()`; it performs no input validation.
The internally computed inference_time is only logged, not returned. -/
def EmbeddingModel.embed (m : EmbeddingModel) (text : String) :
    Except String (List ℚ) :=
  m.model.encode text

/-- src/shared/model.py lines 50-66: `embed_batch` delegates directly to
`self.model.encode(texts).tolist()`; no input validation. -/
def EmbeddingModel.embed_batch (m : EmbeddingModel) (texts : List String) :
    Except String (List (List ℚ)) :=
  m.model.encodeBatch texts

/-- src/shared/model.py lines 68-75: `get_embedding_dimension`. -/
def EmbeddingModel.get_embedding_dimension (m : EmbeddingModel) : ℕ :=
  m.model.dim

/- ----------------------------------------------------------------- -/
/- REST adapter (src/rest_api/main.py)                                -/
/- ----------------------------------------------------------------- -/

/-- Prometheus metrics state of the REST process (src/rest_api/main.py
lines 32-47): REQUEST_COUNT labelled (method, endpoint, status),
REQUEST_LATENCY labelled (method, endpoint), INFERENCE_LATENCY unlabelled.
Histograms are modelled as the list of observations. -/
structure RestMetrics where
  requestCount : String × String × String → ℕ
  requestLatency : String × String → List ℚ
  inferenceLatency : List ℚ

/-- Fresh metrics state of a newly started REST process: all counters
zero, no observations. -/
def restFresh : RestMetrics :=
  { requestCount := fun _ => 0
    requestLatency := fun _ => []
    inferenceLatency := [] }

/-- Counter increment, `REQUEST_COUNT.labels(...).inc()`. -/
def RestMetrics.incCount (ms : RestMetrics) (k : String × String × String) :
    RestMetrics :=
  { ms with requestCount :=
      fun k2 => if k2 = k then ms.requestCount k2 + 1 else ms.requestCount k2 }

/-- Histogram observation, `REQUEST_LATENCY.labels(...).observe(x)`. -/
def RestMetrics.observeReq (ms : RestMetrics) (k : String × String) (x : ℚ) :
    RestMetrics :=
  { ms with requestLatency :=
      fun k2 => if k2 = k then ms.requestLatency k2 ++ [x]
                else ms.requestLatency k2 }

/-- Histogram observation, `INFERENCE_LATENCY.observe(x)`. -/
def RestMetrics.observeInf (ms : RestMetrics) (x : ℚ) : RestMetrics :=
  { ms with inferenceLatency := ms.inferenceLatency ++ [x] }

/-- src/rest_api/main.py lines 55-58: response body of POST /embed. -/
structure EmbedResponse where
  embedding : List ℚ
  dimension : ℕ
  inference_time_ms : ℚ
  deriving DecidableEq

/-- src/rest_api/main.py lines 65-69: response body of POST /embed/batch. -/
structure BatchEmbedResponse where
  embeddings : List (List ℚ)
  count : ℕ
  dimension : ℕ
  inference_time_ms : ℚ
  deriving DecidableEq

/-- Outcome of one REST /embed request: HTTP status, optional success
body, optional error detail, and the metrics state after the request. -/
structure RestEmbedOutcome where
  status : ℕ
  response : Option EmbedResponse
  detail : Option String
  metrics : RestMetrics

/-- Outcome of one REST /embed/batch request. -/
structure RestBatchOutcome where
  status : ℕ
  response : Option BatchEmbedResponse
  detail : Option String
  metrics : RestMetrics

/-- src/rest_api/main.py lines 51-52 and 107-131: the full POST /embed
pipeline.  FastAPI first runs Pydantic validation of EmbedRequest
(`text: str = Field(..., min_length=1)`): a body whose text has length
below 1 is rejected with status 422 before the handler body runs, so the
model is not called and no metric is touched.  Otherwise the handler
`embed_text` runs: it calls `model.embed`, and on success records
REQUEST_COUNT (POST, /embed, 200), REQUEST_LATENCY and INFERENCE_LATENCY
and returns 200 with the EmbedResponse; if the contract call raises it
records only REQUEST_COUNT (POST, /embed, 500) and raises HTTPException
500 with the error text as detail.  `t0` is `start_time`, `t1` is
`inference_start`, `t2` the sample ending the inference timing, `t3` the
sample ending the request timing. -/
def rest_embed_endpoint (m : EmbeddingModel) (ms : RestMetrics)
    (text : String) (t0 t1 t2 t3 : ℚ) : RestEmbedOutcome :=
  if text.length < 1 then
    { status := 422, response := none
      detail := some "String should have at least 1 character"
      metrics := ms }
  else
    match m.embed text with
    | Except.ok embedding =>
        let inference_time : ℚ := (t2 - t1) * 1000
        let request_duration : ℚ := t3 - t0
        let ms1 := ms.incCount ("POST", "/embed", "200")
        let ms2 := ms1.observeReq ("POST", "/embed") request_duration
        let ms3 := ms2.observeInf (inference_time / 1000)
        { status := 200
          response := some
            { embedding := embedding
              dimension := m.get_embedding_dimension
              inference_time_ms := inference_time }
          detail := none
          metrics := ms3 }
    | Except.error e =>
        { status := 500, response := none, detail := some e
          metrics := ms.incCount ("POST", "/embed", "500") }

/-- src/rest_api/main.py lines 61-62 and 134-159: the full POST
/embed/batch pipeline.  Pydantic validation of BatchEmbedRequest
(`texts: List[str] = Field(..., min_items=1)`) rejects an empty list with
422 before the handler runs; otherwise the `embed_batch` handler mirrors
the single-embed handler with `count=len(embeddings)`. -/
def rest_embed_batch_endpoint (m : EmbeddingModel) (ms : RestMetrics)
    (texts : List String) (t0 t1 t2 t3 : ℚ) : RestBatchOutcome :=
  if texts.length < 1 then
    { status := 422, response := none
      detail := some "List should have at least 1 item"
      metrics := ms }
  else
    match m.embed_batch texts with
    | Except.ok embeddings =>
        let inference_time : ℚ := (t2 - t1) * 1000
        let request_duration : ℚ := t3 - t0
        let ms1 := ms.incCount ("POST", "/embed/batch", "200")
        let ms2 := ms1.observeReq ("POST", "/embed/batch") request_duration
        let ms3 := ms2.observeInf (inference_time / 1000)
        { status := 200
          response := some
            { embeddings := embeddings
              count := embeddings.length
              dimension := m.get_embedding_dimension
              inference_time_ms := inference_time }
          detail := none
          metrics := ms3 }
    | Except.error e =>
        { status := 500, response := none, detail := some e
          metrics := ms.incCount ("POST", "/embed/batch", "500") }

/- ----------------------------------------------------------------- -/
/- gRPC adapter (src/grpc_api/server.py)                              -/
/- ----------------------------------------------------------------- -/

/-- gRPC status codes used by the servicer. -/
inductive GrpcCode where
  | ok
  | invalidArgument
  | internal
  deriving DecidableEq

/-- Prometheus metrics state of the gRPC process (src/grpc_api/server.py
lines 29-44): REQUEST_COUNT labelled (method, status), REQUEST_LATENCY
labelled (method), INFERENCE_LATENCY unlabelled. -/
structure GrpcMetrics where
  requestCount : String × String → ℕ
  requestLatency : String → List ℚ
  inferenceLatency : List ℚ

/-- Fresh metrics state of a newly started gRPC process. -/
def grpcFresh : GrpcMetrics :=
  { requestCount := fun _ => 0
    requestLatency := fun _ => []
    inferenceLatency := [] }

/-- Counter increment, `REQUEST_COUNT.labels(...).inc()` in the gRPC process. -/
def GrpcMetrics.incCount (ms : GrpcMetrics) (k : String × String) :
    GrpcMetrics :=
  { ms with requestCount :=
      fun k2 => if k2 = k then ms.requestCount k2 + 1 else ms.requestCount k2 }

/-- Histogram observation, `REQUEST_LATENCY.labels(...).observe(x)` in the gRPC process. -/
def GrpcMetrics.observeReq (ms : GrpcMetrics) (k : String) (x : ℚ) :
    GrpcMetrics :=
  { ms with requestLatency :=
      fun k2 => if k2 = k then ms.requestLatency k2 ++ [x]
                else ms.requestLatency k2 }

/-- Histogram observation, `INFERENCE_LATENCY.observe(x)` in the gRPC process. -/
def GrpcMetrics.observeInf (ms : GrpcMetrics) (x : ℚ) : GrpcMetrics :=
  { ms with inferenceLatency := ms.inferenceLatency ++ [x] }

/-- Protobuf EmbedResponse message.  Proto3 fields default to empty list,
zero and zero when the message is constructed empty. -/
structure GrpcEmbedResponse where
  embedding : List ℚ
  dimension : ℕ
  inference_time_ms : ℚ
  deriving DecidableEq

/-- Message `embedding_pb2.EmbedResponse()` with no fields set. -/
def grpcEmptyEmbedResponse : GrpcEmbedResponse :=
  { embedding := [], dimension := 0, inference_time_ms := 0 }

/-- Protobuf BatchEmbedResponse message; `embeddings` is the list of
EmbeddingVector values. -/
structure GrpcBatchEmbedResponse where
  embeddings : List (List ℚ)
  count : ℕ
  dimension : ℕ
  inference_time_ms : ℚ
  deriving DecidableEq

/-- Message `embedding_pb2.BatchEmbedResponse()` with no fields set. -/
def grpcEmptyBatchEmbedResponse : GrpcBatchEmbedResponse :=
  { embeddings := [], count := 0, dimension := 0, inference_time_ms := 0 }

/-- Outcome of one gRPC RPC: status code, optional details string, the
response message (empty on failure), and the metrics state after. -/
structure GrpcOutcome (α : Type) where
  code : GrpcCode
  details : Option String
  response : α
  metrics : GrpcMetrics

/-- src/grpc_api/server.py lines 55-92, `EmbeddingServicer.Embed`: empty
text gives INVALID_ARGUMENT with details set, an empty response message
and only the (Embed, INVALID_ARGUMENT) counter incremented; on success
the (Embed, OK) counter, the request latency and the inference latency
are recorded and the populated response returned; if the contract call
raises, status INTERNAL with the error text as details, an empty
response, and only the (Embed, INTERNAL) counter incremented. -/
def grpc_Embed (m : EmbeddingModel) (ms : GrpcMetrics)
    (text : String) (t0 t1 t2 t3 : ℚ) : GrpcOutcome GrpcEmbedResponse :=
  if text = "" then
    { code := GrpcCode.invalidArgument
      details := some "Text cannot be empty"
      response := grpcEmptyEmbedResponse
      metrics := ms.incCount ("Embed", "INVALID_ARGUMENT") }
  else
    match m.embed text with
    | Except.ok embedding =>
        let inference_time : ℚ := (t2 - t1) * 1000
        let request_duration : ℚ := t3 - t0
        let ms1 := ms.incCount ("Embed", "OK")
        let ms2 := ms1.observeReq "Embed" request_duration
        let ms3 := ms2.observeInf (inference_time / 1000)
        { code := GrpcCode.ok
          details := none
          response :=
            { embedding := embedding
              dimension := m.get_embedding_dimension
              inference_time_ms := inference_time }
          metrics := ms3 }
    | Except.error e =>
        { code := GrpcCode.internal
          details := some e
          response := grpcEmptyEmbedResponse
          metrics := ms.incCount ("Embed", "INTERNAL") }

/-- src/grpc_api/server.py lines 94-137, `EmbeddingServicer.EmbedBatch`:
same shape as Embed, with `count=len(embeddings)` in the response. -/
def grpc_EmbedBatch (m : EmbeddingModel) (ms : GrpcMetrics)
    (texts : List String) (t0 t1 t2 t3 : ℚ) :
    GrpcOutcome GrpcBatchEmbedResponse :=
  if texts = [] then
    { code := GrpcCode.invalidArgument
      details := some "Texts list cannot be empty"
      response := grpcEmptyBatchEmbedResponse
      metrics := ms.incCount ("EmbedBatch", "INVALID_ARGUMENT") }
  else
    match m.embed_batch texts with
    | Except.ok embeddings =>
        let inference_time : ℚ := (t2 - t1) * 1000
        let request_duration : ℚ := t3 - t0
        let ms1 := ms.incCount ("EmbedBatch", "OK")
        let ms2 := ms1.observeReq "EmbedBatch" request_duration
        let ms3 := ms2.observeInf (inference_time / 1000)
        { code := GrpcCode.ok
          details := none
          response :=
            { embeddings := embeddings
              count := embeddings.length
              dimension := m.get_embedding_dimension
              inference_time_ms := inference_time }
          metrics := ms3 }
    | Except.error e =>
        { code := GrpcCode.internal
          details := some e
          response := grpcEmptyBatchEmbedResponse
          metrics := ms.incCount ("EmbedBatch", "INTERNAL") }

/- ----------------------------------------------------------------- -/
/- GraphQL adapter (src/graphql_api/schema.py, src/graphql_api/main.py) -/
/- ----------------------------------------------------------------- -/

/-- src/graphql_api/schema.py lines 22-27: EmbedResult type. -/
structure GqlEmbedResult where
  embedding : List ℚ
  dimension : ℕ
  inference_time_ms : ℚ
  deriving DecidableEq

/-- src/graphql_api/schema.py lines 30-36: BatchEmbedResult type. -/
structure GqlBatchEmbedResult where
  embeddings : List (List ℚ)
  count : ℕ
  dimension : ℕ
  inference_time_ms : ℚ
  deriving DecidableEq

/-- src/graphql_api/schema.py lines 39-44: HealthCheck type returned by
the GraphQL health query. -/
structure GqlHealthCheck where
  status : String
  model : String
  embedding_dimension : ℕ
  deriving DecidableEq

/-- src/graphql_api/schema.py lines 63-70, `Query.health`: builds a
HealthCheck from the shared model handle. -/
def gql_query_health (m : EmbeddingModel) : GqlHealthCheck :=
  { status := "healthy"
    model := m.model_name
    embedding_dimension := m.get_embedding_dimension }

/-- src/graphql_api/schema.py lines 77-91, the `embed` mutation resolver:
raises ValueError when `input.text` is falsy (the empty string), else
calls the shared `model.embed` and returns an EmbedResult.  `t0` is
`start_time`, `t1` the sample after the contract call. -/
def gql_embed_resolver (m : EmbeddingModel) (text : String) (t0 t1 : ℚ) :
    Except String GqlEmbedResult :=
  if text = "" then
    Except.error "Text cannot be empty"
  else
    match m.embed text with
    | Except.ok embedding =>
        Except.ok
          { embedding := embedding
            dimension := m.get_embedding_dimension
            inference_time_ms := (t1 - t0) * 1000 }
    | Except.error e => Except.error e

/-- src/graphql_api/schema.py lines 93-108, the `embed_batch` mutation
resolver: raises ValueError when `input.texts` is falsy (the empty
list), else calls the shared `model.embed_batch`. -/
def gql_embed_batch_resolver (m : EmbeddingModel) (texts : List String)
    (t0 t1 : ℚ) : Except String GqlBatchEmbedResult :=
  if texts = [] then
    Except.error "Texts list cannot be empty"
  else
    match m.embed_batch texts with
    | Except.ok embeddings =>
        Except.ok
          { embeddings := embeddings
            count := embeddings.length
            dimension := m.get_embedding_dimension
            inference_time_ms := (t1 - t0) * 1000 }
    | Except.error e => Except.error e

/-- A GraphQL HTTP response as delivered by the strawberry router: the
transport status is 200 even on resolver failure; a resolver exception
becomes an entry of the errors array with no data (spec section 4.4
documents this protocol-level error-channel semantics). -/
structure GraphQLResponse (α : Type) where
  httpStatus : ℕ
  payload : Option α
  errors : List String

/-- Prometheus metrics state of the GraphQL process
(src/graphql_api/main.py lines 22-32): REQUEST_COUNT labelled
(endpoint, status), REQUEST_LATENCY labelled (endpoint). -/
structure GqlMetrics where
  requestCount : String × String → ℕ
  requestLatency : String → List ℚ

/-- Fresh metrics state of a newly started GraphQL process. -/
def gqlFresh : GqlMetrics :=
  { requestCount := fun _ => 0, requestLatency := fun _ => [] }

/-- Counter increment, `REQUEST_COUNT.labels(...).inc()` in the GraphQL process. -/
def GqlMetrics.incCount (ms : GqlMetrics) (k : String × String) :
    GqlMetrics :=
  { ms with requestCount :=
      fun k2 => if k2 = k then ms.requestCount k2 + 1 else ms.requestCount k2 }

/-- Handling of a POST /graphql request carrying the embed mutation, at
process level (src/graphql_api/main.py lines 34-38 mount the strawberry
router with no middleware): the resolver runs and its result or exception
is wrapped into the GraphQL response; no code on this path touches
REQUEST_COUNT or REQUEST_LATENCY, so the metrics state is returned
unchanged. -/
def gql_process_embed (m : EmbeddingModel) (ms : GqlMetrics)
    (text : String) (t0 t1 : ℚ) :
    GraphQLResponse GqlEmbedResult × GqlMetrics :=
  (match gql_embed_resolver m text t0 t1 with
   | Except.ok r => { httpStatus := 200, payload := some r, errors := [] }
   | Except.error e => { httpStatus := 200, payload := none, errors := [e] },
   ms)

/-- Handling of a POST /graphql request carrying the embedBatch mutation
at process level; like `gql_process_embed`, no metric is touched. -/
def gql_process_embed_batch (m : EmbeddingModel) (ms : GqlMetrics)
    (texts : List String) (t0 t1 : ℚ) :
    GraphQLResponse GqlBatchEmbedResult × GqlMetrics :=
  (match gql_embed_batch_resolver m texts t0 t1 with
   | Except.ok r => { httpStatus := 200, payload := some r, errors := [] }
   | Except.error e => { httpStatus := 200, payload := none, errors := [e] },
   ms)

/-- Body returned by the GraphQL process HTTP GET /health endpoint. -/
structure GqlHealthBody where
  status : String
  api : String
  deriving DecidableEq

/-- src/graphql_api/main.py lines 56-64, `health_check`: increments
REQUEST_COUNT (/health, 200) and returns the static body with status
"healthy" and api "graphql"; it reads nothing from the model. -/
def gql_http_health (ms : GqlMetrics) : GqlHealthBody × GqlMetrics :=
  ({ status := "healthy", api := "graphql" },
   ms.incCount ("/health", "200"))

/- ----------------------------------------------------------------- -/
/- A sequence of /embed requests against one REST process (for the    -/
/- metrics scenario of spec section 8)                                -/
/- ----------------------------------------------------------------- -/

/-- One incoming POST /embed request together with the four clock
samples its handling takes. -/
structure RestCall where
  text : String
  t0 : ℚ
  t1 : ℚ
  t2 : ℚ
  t3 : ℚ

/-- Sequential handling of a list of /embed requests by one REST
process, threading the metrics state. -/
def rest_run (m : EmbeddingModel) (ms : RestMetrics) :
    List RestCall → RestMetrics
  | [] => ms
  | c :: cs =>
      rest_run m (rest_embed_endpoint m ms c.text c.t0 c.t1 c.t2 c.t3).metrics cs

/- ----------------------------------------------------------------- -/
/- Concrete external models used to instantiate theorems              -/
/- ----------------------------------------------------------------- -/

/-- A concrete external model: dimension 2, every text encoded to the
vector of its length followed by 0, batches elementwise in order. -/
def st0 : SentenceTransformer :=
  { encode := fun t => Except.ok [(t.length : ℚ), 0]
    encodeBatch := fun ts => Except.ok (ts.map fun t => [(t.length : ℚ), 0])
    dim := 2 }

/-- Shared model handle built over `st0` with the default configuration
name. -/
def model0 : EmbeddingModel := mkEmbeddingModel st0

/-- A concrete external model whose encode raises on the text "boom"
(modelling a model computation failure) and succeeds elsewhere. -/
def stErr : SentenceTransformer :=
  { encode := fun t => if t = "boom" then Except.error "kaboom"
                       else Except.ok [(t.length : ℚ), 0]
    encodeBatch := fun ts => Except.ok (ts.map fun t => [(t.length : ℚ), 0])
    dim := 2 }

/-- Shared model handle built over `stErr`. -/
def modelErr : EmbeddingModel := mkEmbeddingModel stErr

/-- Embedding vector carried by the REST /embed response, when the
request produced a success body. -/
def rest_embed_vector (m : EmbeddingModel) (ms : RestMetrics)
    (text : String) (t0 t1 t2 t3 : ℚ) : Option (List ℚ) :=
  (rest_embed_endpoint m ms text t0 t1 t2 t3).response.map
    fun r => r.embedding

/-- Embedding vector carried by the GraphQL embed mutation result, when
the resolver succeeded. -/
def gql_embed_vector (m : EmbeddingModel) (text : String) (t0 t1 : ℚ) :
    Option (List ℚ) :=
  match gql_embed_resolver m text t0 t1 with
  | Except.ok r => some r.embedding
  | Except.error _ => none

/-- Embedding vector carried by the gRPC Embed response, when the RPC
finished with status OK. -/
def grpc_embed_vector (m : EmbeddingModel) (ms : GrpcMetrics)
    (text : String) (t0 t1 t2 t3 : ℚ) : Option (List ℚ) :=
  let r := grpc_Embed m ms text t0 t1 t2 t3
  if r.code = GrpcCode.ok then some r.response.embedding else none

/- ----------------------------------------------------------------- -/
/- Helper lemmas                                                      -/
/- ----------------------------------------------------------------- -/

/-- The concrete model `st0` satisfies the external contract. -/
lemma st0_contract : STContract st0 := by
  constructor
  · intro t; exact ⟨[(t.length : ℚ), 0], rfl⟩
  · intro t v hv
    simp only [st0, Except.ok.injEq] at hv
    subst hv; rfl
  · intro ts
    refine ⟨ts.map fun t => [(t.length : ℚ), 0], ?_⟩
    rfl
  · intro ts vs hvs
    simp only [st0, Except.ok.injEq] at hvs
    subst hvs; simp
  · intro ts vs hvs i hi hv
    simp only [st0, Except.ok.injEq] at hvs
    subst hvs
    simp [List.get_eq_getElem, List.getElem_map, st0]

/-- A non-empty string passes the Pydantic min_length=1 check. -/
lemma ne_empty_not_short (s : String) (h : s ≠ "") : ¬ s.length < 1 := by
  intro hl
  have h0 : s.length = 0 := by omega
  apply h
  cases s with
  | mk data =>
    simp [String.length] at h0
    simp [h0]

/-- A non-empty list passes the Pydantic min_items=1 check. -/
lemma ne_nil_not_short (ts : List String) (h : ts ≠ []) :
    ¬ ts.length < 1 := by
  intro hl
  exact h (List.length_eq_zero.mp (by omega))

/- ----------------------------------------------------------------- -/
/- Claim theorems                                                     -/
/- ----------------------------------------------------------------- -/

/-- C1: for every non-empty input text, the REST POST /embed handler,
the GraphQL embed mutation and the gRPC Embed RPC return numerically
identical embedding vectors, because all three delegate to the same
shared EmbeddingModel.embed with the same model configuration. -/
theorem embed_cross_protocol_parity
    (st : SentenceTransformer) (name : String) (ms : RestMetrics)
    (gms : GrpcMetrics) (text : String) (h : text ≠ "")
    (t0 t1 t2 t3 u0 u1 u2 u3 v0 v1 : ℚ) :
    rest_embed_vector (mkEmbeddingModel st name) ms text t0 t1 t2 t3
      = gql_embed_vector (mkEmbeddingModel st name) text v0 v1 ∧
    gql_embed_vector (mkEmbeddingModel st name) text v0 v1
      = grpc_embed_vector (mkEmbeddingModel st name) gms text u0 u1 u2 u3 := by
  have hs := ne_empty_not_short text h
  unfold rest_embed_vector gql_embed_vector grpc_embed_vector
    rest_embed_endpoint gql_embed_resolver grpc_Embed
  cases he : (mkEmbeddingModel st name).embed text <;> simp [hs, h, he]

/-- Witness for C1 at the concrete model `st0` and text "hello". -/
theorem embed_cross_protocol_parity_witness :
    rest_embed_vector model0 restFresh "hello" 0 1 2 3
      = gql_embed_vector model0 "hello" 0 1 ∧
    gql_embed_vector model0 "hello" 0 1
      = grpc_embed_vector model0 grpcFresh "hello" 0 1 2 3 :=
  embed_cross_protocol_parity st0 "all-MiniLM-L6-v2" restFresh grpcFresh
    "hello" (by decide) 0 1 2 3 0 1 2 3 0 1

/-- C2: for every non-empty text, embed succeeds with a vector of length
dimension(), and the inference_time_ms reported alongside it in the REST
response is non-negative (the two clock samples bounding the contract
call being in order). -/
theorem embed_dimension_and_nonneg_time
    (st : SentenceTransformer) (name : String) (ms : RestMetrics)
    (text : String) (t0 t1 t2 t3 : ℚ)
    (hc : STContract st) (h : text ≠ "") (h12 : t1 ≤ t2) :
    ∃ v, (mkEmbeddingModel st name).embed text = Except.ok v ∧
      v.length = (mkEmbeddingModel st name).get_embedding_dimension ∧
      (rest_embed_endpoint (mkEmbeddingModel st name) ms
          text t0 t1 t2 t3).status = 200 ∧
      ∃ r, (rest_embed_endpoint (mkEmbeddingModel st name) ms
          text t0 t1 t2 t3).response = some r ∧
        r.embedding = v ∧ 0 ≤ r.inference_time_ms := by
  obtain ⟨v, hv⟩ := hc.encode_ok text
  have hdim := hc.encode_dim text v hv
  have hs := ne_empty_not_short text h
  have hembed : (mkEmbeddingModel st name).embed text = Except.ok v := hv
  refine ⟨v, hembed, hdim, ?_, ?_⟩
  · unfold rest_embed_endpoint
    simp [hs, hembed]
  · unfold rest_embed_endpoint
    simp only [hs, if_false, hembed]
    refine ⟨_, rfl, rfl, ?_⟩
    have : (0 : ℚ) ≤ t2 - t1 := by linarith
    positivity

/-- Witness for C2 at the concrete model `st0`, text "hello" and clock
samples 0, 1, 2, 3. -/
theorem embed_dimension_and_nonneg_time_witness :
    ∃ v, model0.embed "hello" = Except.ok v ∧
      v.length = model0.get_embedding_dimension ∧
      (rest_embed_endpoint model0 restFresh "hello" 0 1 2 3).status = 200 ∧
      ∃ r, (rest_embed_endpoint model0 restFresh "hello" 0 1 2 3).response
          = some r ∧ r.embedding = v ∧ 0 ≤ r.inference_time_ms :=
  embed_dimension_and_nonneg_time st0 "all-MiniLM-L6-v2" restFresh
    "hello" 0 1 2 3 st0_contract (by decide) (by norm_num)

/-- C3: for every non-empty sequence of texts, embed_batch returns
exactly as many vectors as texts, each of length dimension(), the i-th
output being the embedding of the i-th input (order preserved, stated as
a Forall₂ correspondence), and the count field of the REST batch
response equals the input batch size. -/
theorem embed_batch_order_and_count
    (st : SentenceTransformer) (name : String) (ms : RestMetrics)
    (texts : List String) (t0 t1 t2 t3 : ℚ)
    (hc : STContract st) (h : texts ≠ []) :
    ∃ vs, (mkEmbeddingModel st name).embed_batch texts = Except.ok vs ∧
      vs.length = texts.length ∧
      List.Forall₂ (fun t v => st.encode t = Except.ok v ∧
        v.length = (mkEmbeddingModel st name).get_embedding_dimension)
        texts vs ∧
      ∃ r, (rest_embed_batch_endpoint (mkEmbeddingModel st name) ms
          texts t0 t1 t2 t3).response = some r ∧
        r.embeddings = vs ∧ r.count = texts.length := by
  obtain ⟨vs, hvs⟩ := hc.batch_ok texts
  have hlen := hc.batch_len texts vs hvs
  have hord := hc.batch_order texts vs hvs
  have hs := ne_nil_not_short texts h
  have hembed : (mkEmbeddingModel st name).embed_batch texts
      = Except.ok vs := hvs
  refine ⟨vs, hembed, hlen, ?_, ?_⟩
  · rw [List.forall₂_iff_get]
    refine ⟨hlen.symm, ?_⟩
    intro i h1 h2
    have he := hord i h1 h2
    exact ⟨he, hc.encode_dim _ _ he⟩
  · unfold rest_embed_batch_endpoint
    simp only [hs, if_false, hembed]
    exact ⟨_, rfl, rfl, hlen⟩

/-- Witness for C3 at the concrete model `st0` and the batch
["a", "b", "c"]. -/
theorem embed_batch_order_and_count_witness :
    ∃ vs, model0.embed_batch ["a", "b", "c"] = Except.ok vs ∧
      vs.length = (["a", "b", "c"] : List String).length ∧
      List.Forall₂ (fun t v => st0.encode t = Except.ok v ∧
        v.length = model0.get_embedding_dimension)
        ["a", "b", "c"] vs ∧
      ∃ r, (rest_embed_batch_endpoint model0 restFresh
          ["a", "b", "c"] 0 1 2 3).response = some r ∧
        r.embeddings = vs ∧ r.count = (["a", "b", "c"] : List String).length :=
  embed_batch_order_and_count st0 "all-MiniLM-L6-v2" restFresh
    ["a", "b", "c"] 0 1 2 3 st0_contract (by decide)

/-- C4 counterexample: a POST /embed request with empty text is answered
with status 422 by Pydantic validation, not with status 500 as the claim
states (the handler body is never reached). -/
theorem rest_empty_text_status_not_500 :
    (rest_embed_endpoint model0 restFresh "" 0 0 0 0).status = 422 ∧
    ¬ (rest_embed_endpoint model0 restFresh "" 0 0 0 0).status = 500 := by
  constructor
  · rfl
  · intro hc
    simp [rest_embed_endpoint] at hc

/-- C4 amended: for every request carrying an empty text to the
single-embed operation, the REST adapter returns status 422 with a
validation detail (Pydantic rejects the body before the handler runs),
the gRPC adapter returns INVALID_ARGUMENT with details set, and the
GraphQL adapter returns transport status 200 with an entry in the errors
array and no usable embed data. -/
theorem empty_text_per_protocol_failure
    (m : EmbeddingModel) (ms : RestMetrics) (gms : GrpcMetrics)
    (qms : GqlMetrics) (t0 t1 t2 t3 u0 u1 u2 u3 v0 v1 : ℚ) :
    (rest_embed_endpoint m ms "" t0 t1 t2 t3).status = 422 ∧
    (rest_embed_endpoint m ms "" t0 t1 t2 t3).response = none ∧
    (rest_embed_endpoint m ms "" t0 t1 t2 t3).detail ≠ none ∧
    (grpc_Embed m gms "" u0 u1 u2 u3).code = GrpcCode.invalidArgument ∧
    (grpc_Embed m gms "" u0 u1 u2 u3).details
      = some "Text cannot be empty" ∧
    (gql_process_embed m qms "" v0 v1).1.httpStatus = 200 ∧
    (gql_process_embed m qms "" v0 v1).1.errors ≠ [] ∧
    (gql_process_embed m qms "" v0 v1).1.payload = none := by
  refine ⟨rfl, rfl, by simp [rest_embed_endpoint], rfl, rfl, ?_, ?_, ?_⟩ <;>
    simp [gql_process_embed, gql_embed_resolver]

/-- C5 counterexample: the shared EmbeddingModel does not itself reject
invalid input — with the concrete external model `st0`, embed applied to
the empty string succeeds (returning the encoding of ""), and embed_batch
applied to the empty sequence succeeds (returning no vectors), instead of
failing with an InvalidArgument error as the claim states. -/
theorem shared_model_accepts_empty_input :
    model0.embed "" = Except.ok [0, 0] ∧
    model0.embed_batch [] = Except.ok [] := by
  constructor <;> rfl

/-- C5 amended: the shared EmbeddingModel performs no input validation —
embed and embed_batch delegate unconditionally to the external model —
and the InvalidArgument-style rejection of empty input is implemented at
each adapter boundary instead: Pydantic 422 for REST, a ValueError
surfaced as a GraphQL error for GraphQL, and INVALID_ARGUMENT for
gRPC. -/
theorem shared_model_delegates_validation_to_adapters
    (m : EmbeddingModel) (text : String) (texts : List String)
    (ms : RestMetrics) (gms : GrpcMetrics)
    (t0 t1 t2 t3 u0 u1 u2 u3 v0 v1 w0 w1 : ℚ) :
    m.embed text = m.model.encode text ∧
    m.embed_batch texts = m.model.encodeBatch texts ∧
    (rest_embed_endpoint m ms "" t0 t1 t2 t3).status = 422 ∧
    (rest_embed_batch_endpoint m ms [] t0 t1 t2 t3).status = 422 ∧
    gql_embed_resolver m "" v0 v1
      = Except.error "Text cannot be empty" ∧
    gql_embed_batch_resolver m [] w0 w1
      = Except.error "Texts list cannot be empty" ∧
    (grpc_Embed m gms "" u0 u1 u2 u3).code = GrpcCode.invalidArgument ∧
    (grpc_EmbedBatch m gms [] u0 u1 u2 u3).code
      = GrpcCode.invalidArgument :=
  ⟨rfl, rfl, rfl, rfl, rfl, rfl, rfl, rfl⟩

/-- The HTTP status of a /embed request depends only on the text and the
model, not on the metrics state or the clock samples. -/
lemma rest_embed_status_indep (m : EmbeddingModel) (ms ms2 : RestMetrics)
    (text : String) (t0 t1 t2 t3 s0 s1 s2 s3 : ℚ) :
    (rest_embed_endpoint m ms text t0 t1 t2 t3).status
      = (rest_embed_endpoint m ms2 text s0 s1 s2 s3).status := by
  unfold rest_embed_endpoint
  by_cases h : text.length < 1
  · simp [h]
  · simp only [h, if_false]
    cases he : m.embed text <;> simp [he]

/-- Handling one /embed request adds one to the (POST, /embed, 200)
counter exactly when the request finished with status 200. -/
lemma rest_embed_count_200 (m : EmbeddingModel) (ms : RestMetrics)
    (text : String) (t0 t1 t2 t3 : ℚ) :
    (rest_embed_endpoint m ms text t0 t1 t2 t3).metrics.requestCount
        ("POST", "/embed", "200")
      = ms.requestCount ("POST", "/embed", "200")
        + (if (rest_embed_endpoint m ms text t0 t1 t2 t3).status = 200
           then 1 else 0) := by
  unfold rest_embed_endpoint
  by_cases h : text.length < 1
  · simp [h]
  · simp only [h, if_false]
    cases he : m.embed text with
    | ok v =>
        simp [RestMetrics.incCount, RestMetrics.observeReq,
          RestMetrics.observeInf]
    | error e =>
        simp only [RestMetrics.incCount]
        rw [if_neg (by decide), if_neg (by decide)]
        omega

/-- Handling one /embed request adds one to the (POST, /embed, 500)
counter exactly when the request finished with status 500. -/
lemma rest_embed_count_500 (m : EmbeddingModel) (ms : RestMetrics)
    (text : String) (t0 t1 t2 t3 : ℚ) :
    (rest_embed_endpoint m ms text t0 t1 t2 t3).metrics.requestCount
        ("POST", "/embed", "500")
      = ms.requestCount ("POST", "/embed", "500")
        + (if (rest_embed_endpoint m ms text t0 t1 t2 t3).status = 500
           then 1 else 0) := by
  unfold rest_embed_endpoint
  by_cases h : text.length < 1
  · simp [h]
  · simp only [h, if_false]
    cases he : m.embed text with
    | ok v =>
        simp only [RestMetrics.incCount, RestMetrics.observeReq,
          RestMetrics.observeInf]
        rw [if_neg (by decide)]
        simp
    | error e =>
        simp [RestMetrics.incCount]

/-- Folding a request list accumulates the (POST, /embed, 200)
counter by the number of requests finishing with status 200. -/
lemma rest_run_count_200 (m : EmbeddingModel) (calls : List RestCall) :
    ∀ ms : RestMetrics,
      (rest_run m ms calls).requestCount ("POST", "/embed", "200")
        = ms.requestCount ("POST", "/embed", "200")
          + calls.countP (fun c => decide
              ((rest_embed_endpoint m restFresh c.text
                  c.t0 c.t1 c.t2 c.t3).status = 200)) := by
  induction calls with
  | nil => intro ms; simp [rest_run]
  | cons c cs ih =>
      intro ms
      rw [rest_run, ih, rest_embed_count_200, List.countP_cons]
      rw [rest_embed_status_indep m ms restFresh c.text
        c.t0 c.t1 c.t2 c.t3 c.t0 c.t1 c.t2 c.t3]
      simp only [decide_eq_true_eq]
      omega

/-- Folding a request list accumulates the (POST, /embed, 500)
counter by the number of requests finishing with status 500. -/
lemma rest_run_count_500 (m : EmbeddingModel) (calls : List RestCall) :
    ∀ ms : RestMetrics,
      (rest_run m ms calls).requestCount ("POST", "/embed", "500")
        = ms.requestCount ("POST", "/embed", "500")
          + calls.countP (fun c => decide
              ((rest_embed_endpoint m restFresh c.text
                  c.t0 c.t1 c.t2 c.t3).status = 500)) := by
  induction calls with
  | nil => intro ms; simp [rest_run]
  | cons c cs ih =>
      intro ms
      rw [rest_run, ih, rest_embed_count_500, List.countP_cons]
      rw [rest_embed_status_indep m ms restFresh c.text
        c.t0 c.t1 c.t2 c.t3 c.t0 c.t1 c.t2 c.t3]
      simp only [decide_eq_true_eq]
      omega

/-- C6: starting from a fresh metrics state, after any sequence of
/embed requests, the counter labelled (POST, /embed, 200) equals the
number of requests of the sequence that succeeded (status 200) and the
counter labelled (POST, /embed, 500) equals the number that failed in
the handler (status 500). -/
theorem rest_metrics_scenario (m : EmbeddingModel) (calls : List RestCall) :
    (rest_run m restFresh calls).requestCount ("POST", "/embed", "200")
      = calls.countP (fun c => decide
          ((rest_embed_endpoint m restFresh c.text
              c.t0 c.t1 c.t2 c.t3).status = 200)) ∧
    (rest_run m restFresh calls).requestCount ("POST", "/embed", "500")
      = calls.countP (fun c => decide
          ((rest_embed_endpoint m restFresh c.text
              c.t0 c.t1 c.t2 c.t3).status = 500)) := by
  constructor
  · rw [rest_run_count_200]; simp [restFresh]
  · rw [rest_run_count_500]; simp [restFresh]

/-- C7 counterexample: handling a successful GraphQL embed mutation (the
concrete model `st0`, text "hello") leaves the GraphQL process metrics
state exactly as it was — no request counter is incremented and no
latency is recorded, contrary to the claim. -/
theorem gql_embed_mutation_records_no_metrics :
    (gql_process_embed model0 gqlFresh "hello" 0 1).2 = gqlFresh ∧
    (gql_process_embed model0 gqlFresh "hello" 0 1).1.payload ≠ none := by
  refine ⟨rfl, ?_⟩
  simp [gql_process_embed, gql_embed_resolver, EmbeddingModel.embed,
    model0, mkEmbeddingModel, st0]

/-- C7 amended: the REST and gRPC adapters record metrics for every
embedding request they handle (each handled /embed request and each
Embed RPC increments exactly one of its status counters), but the
GraphQL adapter does not: the embed and embedBatch mutations leave the
GraphQL process metrics state unchanged, and only the HTTP /health
endpoint of that process increments a counter. -/
theorem adapter_metrics_recording
    (m : EmbeddingModel) (qms : GqlMetrics) (ms : RestMetrics)
    (gms : GrpcMetrics) (text textg : String) (texts : List String)
    (t0 t1 t2 t3 u0 u1 u2 u3 v0 v1 w0 w1 : ℚ) :
    (gql_process_embed m qms text v0 v1).2 = qms ∧
    (gql_process_embed_batch m qms texts w0 w1).2 = qms ∧
    (gql_http_health qms).2.requestCount ("/health", "200")
      = qms.requestCount ("/health", "200") + 1 ∧
    ((rest_embed_endpoint m ms text t0 t1 t2 t3).metrics.requestCount
        ("POST", "/embed", "200")
      + (rest_embed_endpoint m ms text t0 t1 t2 t3).metrics.requestCount
        ("POST", "/embed", "500")
      = ms.requestCount ("POST", "/embed", "200")
        + ms.requestCount ("POST", "/embed", "500")
        + (if (rest_embed_endpoint m ms text t0 t1 t2 t3).status = 422
           then 0 else 1)) ∧
    ((grpc_Embed m gms textg u0 u1 u2 u3).metrics.requestCount
        ("Embed", "OK")
      + (grpc_Embed m gms textg u0 u1 u2 u3).metrics.requestCount
        ("Embed", "INVALID_ARGUMENT")
      + (grpc_Embed m gms textg u0 u1 u2 u3).metrics.requestCount
        ("Embed", "INTERNAL")
      = gms.requestCount ("Embed", "OK")
        + gms.requestCount ("Embed", "INVALID_ARGUMENT")
        + gms.requestCount ("Embed", "INTERNAL") + 1) := by
  refine ⟨rfl, rfl, ?_, ?_, ?_⟩
  · simp [gql_http_health, GqlMetrics.incCount]
  · unfold rest_embed_endpoint
    by_cases h : text.length < 1
    · simp [h]
    · simp only [h, if_false]
      cases he : m.embed text <;>
        simp [RestMetrics.incCount, RestMetrics.observeReq,
          RestMetrics.observeInf] <;> omega
  · unfold grpc_Embed
    by_cases h : textg = ""
    · simp [h, GrpcMetrics.incCount]
      omega
    · simp only [h, if_false]
      cases he : m.embed textg <;>
        simp [GrpcMetrics.incCount, GrpcMetrics.observeReq,
          GrpcMetrics.observeInf] <;> omega

/-- C8: a REST POST /embed request with empty text (or POST /embed/batch
with an empty texts list) is rejected by Pydantic validation before the
handler body runs: the status is 422, the metrics state (hence every
rest_api_requests_total counter) is unchanged, and the embedding model
is never invoked — the outcome is the same for any two loaded models. -/
theorem rest_empty_input_rejected_before_handler
    (st1 st2 : SentenceTransformer) (n1 n2 : String) (ms : RestMetrics)
    (t0 t1 t2 t3 u0 u1 u2 u3 : ℚ) :
    (rest_embed_endpoint (mkEmbeddingModel st1 n1) ms
        "" t0 t1 t2 t3).status = 422 ∧
    (rest_embed_endpoint (mkEmbeddingModel st1 n1) ms
        "" t0 t1 t2 t3).metrics = ms ∧
    rest_embed_endpoint (mkEmbeddingModel st1 n1) ms "" t0 t1 t2 t3
      = rest_embed_endpoint (mkEmbeddingModel st2 n2) ms "" t0 t1 t2 t3 ∧
    (rest_embed_batch_endpoint (mkEmbeddingModel st1 n1) ms
        [] u0 u1 u2 u3).status = 422 ∧
    (rest_embed_batch_endpoint (mkEmbeddingModel st1 n1) ms
        [] u0 u1 u2 u3).metrics = ms ∧
    rest_embed_batch_endpoint (mkEmbeddingModel st1 n1) ms [] u0 u1 u2 u3
      = rest_embed_batch_endpoint (mkEmbeddingModel st2 n2) ms
          [] u0 u1 u2 u3 :=
  ⟨rfl, rfl, rfl, rfl, rfl, rfl⟩

/-- C9: on the REST and gRPC single-embed paths, when the contract call
raises, only the failure status counter is incremented — 500 for REST,
INTERNAL for gRPC — and the metrics state is otherwise unchanged: every
other counter keeps its value and no latency histogram is observed. -/
theorem failure_branch_frame
    (st : SentenceTransformer) (name : String) (ms : RestMetrics)
    (gms : GrpcMetrics) (text e : String)
    (t0 t1 t2 t3 u0 u1 u2 u3 : ℚ)
    (h : text ≠ "") (he : st.encode text = Except.error e) :
    (rest_embed_endpoint (mkEmbeddingModel st name) ms
        text t0 t1 t2 t3).status = 500 ∧
    (rest_embed_endpoint (mkEmbeddingModel st name) ms
        text t0 t1 t2 t3).metrics.requestCount ("POST", "/embed", "500")
      = ms.requestCount ("POST", "/embed", "500") + 1 ∧
    (∀ k, k ≠ ("POST", "/embed", "500") →
      (rest_embed_endpoint (mkEmbeddingModel st name) ms
          text t0 t1 t2 t3).metrics.requestCount k = ms.requestCount k) ∧
    (rest_embed_endpoint (mkEmbeddingModel st name) ms
        text t0 t1 t2 t3).metrics.requestLatency = ms.requestLatency ∧
    (rest_embed_endpoint (mkEmbeddingModel st name) ms
        text t0 t1 t2 t3).metrics.inferenceLatency = ms.inferenceLatency ∧
    (grpc_Embed (mkEmbeddingModel st name) gms
        text u0 u1 u2 u3).code = GrpcCode.internal ∧
    (grpc_Embed (mkEmbeddingModel st name) gms
        text u0 u1 u2 u3).metrics.requestCount ("Embed", "INTERNAL")
      = gms.requestCount ("Embed", "INTERNAL") + 1 ∧
    (∀ k, k ≠ ("Embed", "INTERNAL") →
      (grpc_Embed (mkEmbeddingModel st name) gms
          text u0 u1 u2 u3).metrics.requestCount k = gms.requestCount k) ∧
    (grpc_Embed (mkEmbeddingModel st name) gms
        text u0 u1 u2 u3).metrics.requestLatency = gms.requestLatency ∧
    (grpc_Embed (mkEmbeddingModel st name) gms
        text u0 u1 u2 u3).metrics.inferenceLatency
      = gms.inferenceLatency := by
  have hs := ne_empty_not_short text h
  have hembed : (mkEmbeddingModel st name).embed text
      = Except.error e := he
  unfold rest_embed_endpoint grpc_Embed
  simp only [hs, if_false, h, hembed, RestMetrics.incCount,
    GrpcMetrics.incCount]
  refine ⟨by trivial, by simp, ?_, by trivial, by trivial, by trivial,
    by simp, ?_, by trivial, by trivial⟩
  · intro k hk
    simp [if_neg hk]
  · intro k hk
    simp [if_neg hk]

/-- Witness for C9 at the concrete failing model `stErr` and the text
"boom" whose encoding raises. -/
theorem failure_branch_frame_witness :
    (rest_embed_endpoint modelErr restFresh "boom" 0 1 2 3).status
      = 500 ∧
    (rest_embed_endpoint modelErr restFresh
        "boom" 0 1 2 3).metrics.requestCount ("POST", "/embed", "500") = 1 ∧
    (rest_embed_endpoint modelErr restFresh
        "boom" 0 1 2 3).metrics.requestCount ("POST", "/embed", "200") = 0 ∧
    (rest_embed_endpoint modelErr restFresh
        "boom" 0 1 2 3).metrics.inferenceLatency = [] ∧
    (grpc_Embed modelErr grpcFresh "boom" 0 1 2 3).code
      = GrpcCode.internal ∧
    (grpc_Embed modelErr grpcFresh
        "boom" 0 1 2 3).metrics.requestCount ("Embed", "INTERNAL") = 1 ∧
    (grpc_Embed modelErr grpcFresh
        "boom" 0 1 2 3).metrics.inferenceLatency = [] := by
  obtain ⟨h1, h2, h3, h4, h5, h6, h7, h8, h9, h10⟩ :=
    failure_branch_frame stErr "all-MiniLM-L6-v2" restFresh grpcFresh
      "boom" "kaboom" 0 1 2 3 0 1 2 3 (by decide) rfl
  exact ⟨h1, h2, h3 ("POST", "/embed", "200") (by decide), h5, h6, h7,
    h10⟩

/-- C10: the GraphQL process HTTP GET /health endpoint always returns
exactly the two-field body with status "healthy" and api "graphql",
independent of any process state, and carries neither the model name nor
the embedding dimension; those are reported by the GraphQL health query,
whose result exposes the model name and dimension of the loaded model. -/
theorem gql_http_health_static (ms ms2 : GqlMetrics) (m : EmbeddingModel) :
    (gql_http_health ms).1 = { status := "healthy", api := "graphql" } ∧
    (gql_http_health ms).1 = (gql_http_health ms2).1 ∧
    (gql_query_health m).status = "healthy" ∧
    (gql_query_health m).model = m.model_name ∧
    (gql_query_health m).embedding_dimension
      = m.get_embedding_dimension :=
  ⟨rfl, rfl, rfl, rfl, rfl⟩

end MLServing
